import Mathlib

/-!
# Verification of the astronote scheduling and persistence core

Shallow embedding of the `hotacium/astronote` repository:

* `astronote-core/src/schedulers/sm2.rs` — the SuperMemo-2 scheduler,
* `astronote-core/src/lib.rs` — `Note` / `SerializedNote` and their conversions,
* `astronote-core/src/db/mod.rs`, `db/sqlite.rs` — the relational note store,
* `astronote-core/src/db/ron.rs` — the hierarchical file-based note store,
* `astronote-cli/src/main.rs` — the path validation helpers.

Modelling conventions:

* Rust `i64` is modelled by `Int`.  None of the verified computations comes
  anywhere near the `i64` bounds, so wrap-around is not modelled; the single
  place where an integer cast can wrap (`self.interval as u64`) is modelled
  faithfully by reduction modulo `2 ^ 64`.
* Rust `f64` arithmetic is modelled exactly over `ℚ`.  Every comparison and
  every `ceil` extracted by the theorems below is far from any `f64` rounding
  boundary; rows of the repository's own test table in `sm2.rs`
  (`test_3rd_repetition`) are reproduced exactly by the rational model in
  the examples following the scheduler definitions.
* A Rust panic (an `unwrap()` of `None`, or an `unreachable!()` arm) is
  modelled by `Option.none`; fallible operations return `Option`.
* `chrono::NaiveDateTime` is modelled by the signed number of days from the
  Unix epoch; the scheduler only ever adds whole days to a datetime, so the
  time-of-day component is constant and omitted.
-/

/-- The SM-2 scheduler state of `sm2.rs`:
`pub struct SuperMemo2 { counter: i64, interval: i64, easiness_factor: f64 }`. -/
structure SuperMemo2 where
  counter : Int
  interval : Int
  easiness_factor : ℚ
deriving DecidableEq, Repr

/-- Models `SuperMemo2::INTERVAL_1ST_REPETITION`. -/
def INTERVAL_1ST_REPETITION : Int := 1

/-- Models `SuperMemo2::INTERVAL_2ND_REPETITION`. -/
def INTERVAL_2ND_REPETITION : Int := 6

/-- Models `SuperMemo2::new`. -/
def SuperMemo2.new (counter interval : Int) (easiness_factor : ℚ) : SuperMemo2 :=
  { counter := counter, interval := interval, easiness_factor := easiness_factor }

/-- Models `impl Default for SuperMemo2`: `Self::new(0, 0, 2.5)`. -/
def SuperMemo2.default : SuperMemo2 :=
  SuperMemo2.new 0 0 (5 / 2)

/-- Models `SuperMemo2::update_easiness_factor` (sm2.rs:42-47).  Mutates
`easiness_factor` and returns the new value; we return the mutated state.
`let q = f64::from(repetition_response.min(5));
 self.easiness_factor += 0.1 - (5.0 - q)*(0.08 + (5.0 - q)*0.02);
 self.easiness_factor = self.easiness_factor.max(1.3);` -/
def update_easiness_factor (s : SuperMemo2) (repetition_response : Nat) : SuperMemo2 :=
  let q : ℚ := (min repetition_response 5 : Nat)
  let ef : ℚ := s.easiness_factor + (1 / 10 - (5 - q) * (8 / 100 + (5 - q) * (2 / 100)))
  { s with easiness_factor := max ef (13 / 10) }

/-- Models `SuperMemo2::update_repetition_interval` (sm2.rs:23-40).  Mutates the
state and returns the new interval; modelled as returning the new state
(the Rust function returns `self.interval` of the result, which equals
`(update_repetition_interval s q).interval` here).  The `0`/negative-counter
match arms hit `unreachable!()`, modelled by `none`.  On a lapse
(`repetition_response < 3` at working counter ≥ 3) the source sets
`self.counter = 0` and recurses; that recursive call necessarily enters the
`counter + 1 == 1` arm, so it is inlined here (yielding counter 1,
interval `INTERVAL_1ST_REPETITION`, everything else untouched), keeping the
definition kernel-computable. -/
def update_repetition_interval (s : SuperMemo2) (repetition_response : Nat) :
    Option SuperMemo2 :=
  if s.counter + 1 = 1 then
    some { s with counter := s.counter + 1, interval := INTERVAL_1ST_REPETITION }
  else if s.counter + 1 = 2 then
    some { s with counter := s.counter + 1, interval := INTERVAL_2ND_REPETITION }
  else if 3 ≤ s.counter + 1 then
    if repetition_response < 3 then
      -- `self.counter = 0; return self.update_repetition_interval(response)`
      some { s with counter := 0 + 1, interval := INTERVAL_1ST_REPETITION }
    else
      let s1 := update_easiness_factor { s with counter := s.counter + 1 } repetition_response
      some { s1 with
             interval := Int.ceil ((s.interval : ℚ) * s1.easiness_factor) }
  else
    none

/-- Free function `calculate_interval` (sm2.rs:75-90): the read-only
interval computation used by `calculate_next_datetime`.  Note that in the
success branch it multiplies the *incremented counter* (not the previous
interval) by the *un-updated* easiness factor.  Its lapse branch
`return calculate_interval(0, easiness_factor, repetition_response)` always
enters the `counter + 1 == 1` arm and is inlined, as in
`update_repetition_interval`. -/
def calculate_interval (counter : Int) (easiness_factor : ℚ)
    (repetition_response : Nat) : Option Int :=
  if counter + 1 = 1 then
    some INTERVAL_1ST_REPETITION
  else if counter + 1 = 2 then
    some INTERVAL_2ND_REPETITION
  else if 3 ≤ counter + 1 then
    if repetition_response < 3 then
      -- `calculate_interval(0, easiness_factor, repetition_response)`
      some INTERVAL_1ST_REPETITION
    else
      some (Int.ceil (((counter + 1 : Int) : ℚ) * easiness_factor))
  else
    none

/-- Days from the Unix epoch to `chrono`'s maximum representable naive date
(year 262143).  The claims below only use that this bound is positive and far
below `10 ^ 17`, so the exact endpoint of the `chrono` range is immaterial. -/
def chronoMaxDay : Int := 95026601

/-- Models `chrono::NaiveDateTime::checked_add_days`: `none` when the result would
fall outside the representable date range. -/
def checked_add_days (t : Int) (days : Nat) : Option Int :=
  if t + (days : Int) ≤ chronoMaxDay then some (t + (days : Int)) else none

/-- The Rust cast `interval as u64` (two's-complement reinterpretation of an
`i64`, then zero-extension), fed to `chrono::Days::new`. -/
def u64_of_i64 (i : Int) : Nat :=
  (i % 2 ^ 64).toNat

/-- Trait method `update_and_calculate_next_datetime` (sm2.rs:59-65), the
mutating "advance" operation.  `now` stands for `chrono::Local::now()`.
`let response = response.min(6);
 self.update_repetition_interval(response);
 let interval = chrono::Days::new(self.interval as u64);
 today.checked_add_days(interval).unwrap()`
The `.unwrap()` of an out-of-range date is a panic, modelled by `none`. -/
def update_and_calculate_next_datetime (s : SuperMemo2) (response : Nat)
    (now : Int) : Option (Int × SuperMemo2) := do
  let response := min response 6
  let s' ← update_repetition_interval s response
  let d ← checked_add_days now (u64_of_i64 s'.interval)
  pure (d, s')

/-- Trait method `calculate_next_datetime` (sm2.rs:66-72), the read-only
"preview" operation; it leaves the state untouched. -/
def calculate_next_datetime (s : SuperMemo2) (response : Nat)
    (now : Int) : Option Int := do
  let response := min response 6
  let interval ← calculate_interval s.counter s.easiness_factor response
  let d ← checked_add_days now (u64_of_i64 interval)
  pure d

/-- The state evolution of one "advance" call: the state part of
`update_and_calculate_next_datetime` (which clamps the response with
`.min(6)` before calling `update_repetition_interval`); the datetime part
does not touch the scheduler state. -/
def advance_state (s : SuperMemo2) (response : Nat) : Option SuperMemo2 :=
  update_repetition_interval s (min response 6)

/-- All intermediate states of a sequence of "advance" calls starting from
`s`; a panic (`none`) aborts the sequence. -/
def advance_states (s : SuperMemo2) : List Nat → List SuperMemo2
  | [] => []
  | q :: qs =>
    match advance_state s q with
    | none => []
    | some s' => s' :: advance_states s' qs

/-! ## Notes and their serialized form (`astronote-core/src/lib.rs`) -/

/-- Models `Box<dyn SchedulingAlgorithm>`: the repository registers exactly one
implementation (`SuperMemo2`), so the trait object is a one-constructor sum. -/
inductive Scheduler where
  | sm2 (state : SuperMemo2)
deriving DecidableEq, Repr

/-- Minimal model of `serde_json::Value`, covering the shapes the repository
stores (`typetag`-tagged scheduler objects, plus `Null` as seen in tests). -/
inductive Json where
  | null : Json
  | num (value : ℚ) : Json
  | str (value : String) : Json
  | obj (fields : List (String × Json)) : Json

/-- Text rendering of a `Json` value (used only to model the RON text of a
metadata file, whose exact shape no claim inspects). -/
def Json.render : Json → String
  | .null => "Null"
  | .num q => toString q
  | .str s => "'" ++ s ++ "'"
  | .obj fields => "(" ++ renderFields fields ++ ")"
where
  renderFields : List (String × Json) → String
    | [] => ""
    | (k, v) :: rest => k ++ ":" ++ v.render ++ "," ++ renderFields rest

/-- Models `struct Note` (lib.rs:16-22): `id`, `absolute_path`, `next_datetime`,
`scheduler: Box<dyn SchedulingAlgorithm>`. -/
structure Note where
  id : Int
  absolute_path : String
  next_datetime : Int
  scheduler : Scheduler
deriving DecidableEq, Repr

/-- Models `struct SerializedNote` (lib.rs:46-52): the scheduler is held as a
`serde_json::Value`. -/
structure SerializedNote where
  id : Int
  absolute_path : String
  next_datetime : Int
  scheduler : Json

/-- First field lookup in a JSON object, as serde's map access. -/
def jsonField (fields : List (String × Json)) (key : String) : Option Json :=
  (fields.find? (fun f => f.1 == key)).map (fun f => f.2)

/-- serde deserialization of an `i64` field from a JSON number: only
integer-valued numbers are accepted. -/
def jsonToI64 : Json → Option Int
  | .num q => if q.den = 1 then some q.num else none
  | _ => none

/-- serde deserialization of an `f64` field from a JSON number. -/
def jsonToF64 : Json → Option ℚ
  | .num q => some q
  | _ => none

/-- Models `serde_json::to_value` of a `Box<dyn SchedulingAlgorithm>` under
`#[typetag::serde(tag = "type")]`: an internally tagged object, the tag
first, then the struct fields in declaration order. -/
def scheduler_to_value : Scheduler → Json
  | .sm2 s =>
    .obj [("type", .str "SuperMemo2"),
          ("counter", .num (s.counter : ℚ)),
          ("interval", .num (s.interval : ℚ)),
          ("easiness_factor", .num s.easiness_factor)]

/-- Models `serde_json::from_value::<Box<dyn SchedulingAlgorithm>>`: dispatch on the
`"type"` tag (an unknown tag is a deserialization error, `none`), then read
the `SuperMemo2` fields; serde's default behaviour looks fields up by name
and ignores unknown fields. -/
def scheduler_from_value (v : Json) : Option Scheduler :=
  match v with
  | .obj fields =>
    match jsonField fields "type" with
    | some (.str "SuperMemo2") => do
      let counter ← jsonField fields "counter" >>= jsonToI64
      let interval ← jsonField fields "interval" >>= jsonToI64
      let ef ← jsonField fields "easiness_factor" >>= jsonToF64
      pure (.sm2 { counter := counter, interval := interval, easiness_factor := ef })
    | _ => none
  | _ => none

/-- The `SerializedNote` built by `TryFrom<Note>`: the fields are copied and
the scheduler is serialized to its tagged JSON value. -/
def note_to_serialized (note : Note) : SerializedNote :=
  { id := note.id
    absolute_path := note.absolute_path
    next_datetime := note.next_datetime
    scheduler := scheduler_to_value note.scheduler }

/-- Models `impl TryFrom<Note> for SerializedNote` (lib.rs:54-66).  The only failure
source is `serde_json::to_value`, which cannot fail on the modelled values,
so the `Result` is always `Ok`. -/
def SerializedNote.try_from (value : Note) : Option SerializedNote :=
  some (note_to_serialized value)

/-- Models `impl TryInto<Note> for SerializedNote` (lib.rs:68-81): fails iff the
scheduler value does not deserialize. -/
def SerializedNote.try_into (self : SerializedNote) : Option Note :=
  (scheduler_from_value self.scheduler).map
    (fun sch => { id := self.id
                  absolute_path := self.absolute_path
                  next_datetime := self.next_datetime
                  scheduler := sch })

/-- A well-formed stored scheduler value: the canonical tagged shape that
the serializer emits — tag `"SuperMemo2"` first, then the three numeric
fields in declaration order, the integer fields integral. -/
def is_canonical_scheduler_value (v : Json) : Prop :=
  ∃ (c i : Int) (e : ℚ),
    v = Json.obj [("type", .str "SuperMemo2"),
                  ("counter", .num (c : ℚ)),
                  ("interval", .num (i : ℚ)),
                  ("easiness_factor", .num e)]

/-! ## The relational backend (`db/mod.rs` inline `sqlite` module, and the
`db/sqlite.rs` revision — identical up to the column name
`absolute_path`/`relative_path`).  The `notes` table: `id INTEGER PRIMARY KEY
AUTOINCREMENT, absolute_path TEXT NOT NULL UNIQUE, next_datetime TEXT,
scheduler JSON` (migrations/0001).  `next_datetime` is an ISO-8601 `TEXT`
column whose lexicographic order is the chronological order, modelled by the
`Int` order on the day number. -/

/-- The `notes` table: rows in rowid order, plus the next AUTOINCREMENT id. -/
structure SqliteDB where
  rows : List SerializedNote
  next_id : Int

/-- The `ORDER BY next_datetime` comparison between rows. -/
def by_due (a b : SerializedNote) : Prop :=
  a.next_datetime ≤ b.next_datetime

instance : DecidableRel by_due := fun a b => Int.decLe a.next_datetime b.next_datetime

instance : IsTotal SerializedNote by_due := ⟨fun a b => Int.le_total a.next_datetime b.next_datetime⟩

instance : IsTrans SerializedNote by_due := ⟨fun _ _ _ => Int.le_trans⟩

/-- Models `create` (db/mod.rs:99-111): `INSERT INTO notes (absolute_path,
next_datetime, scheduler) VALUES (?, ?, ?) ON CONFLICT(absolute_path) DO
NOTHING`.  The returned `last_insert_rowid()` is connection state, not table
state, and no claim refers to it; only the table is modelled. -/
def SqliteDB.create (db : SqliteDB) (item : SerializedNote) : SqliteDB :=
  if db.rows.any (fun r => r.absolute_path == item.absolute_path) then db
  else { rows := db.rows ++ [{ item with id := db.next_id }]
         next_id := db.next_id + 1 }

/-- Models `delete` (db/mod.rs:149-156): `DELETE FROM notes WHERE id = ?`.  The
query succeeds — returning `Ok(())` — whether or not any row matches. -/
def SqliteDB.delete (db : SqliteDB) (note : SerializedNote) : SqliteDB :=
  { db with rows := db.rows.filter (fun r => !(r.id == note.id)) }

/-- Models `get_old_notes` (db/mod.rs:158-167): `SELECT * FROM notes ORDER BY
next_datetime LIMIT ?`, the limit bound as `size as u32`.  SQLite leaves the
order of rows with equal keys unspecified; the model fixes a stable sort. -/
def SqliteDB.get_old_notes (db : SqliteDB) (size : Nat) : List SerializedNote :=
  (db.rows.insertionSort by_due).take (size % 2 ^ 32)

/-- The spec's `list_due(limit, now)` query (spec §4.3), written from the
spec's words for comparison with `SqliteDB.get_old_notes`: "returns Notes
with `next_due ≤ now` […], sorted ascending by `next_due`, truncated to
`limit`". -/
def spec_list_due (db : SqliteDB) (limit : Nat) (now : Int) : List SerializedNote :=
  ((db.rows.filter (fun r => decide (r.next_datetime ≤ now))).insertionSort by_due).take limit

/-! ## The hierarchical file backend (`db/ron.rs`).  This revision's `Note`
names its path field `relative_path`; the `lib.rs` in the tree names it
`absolute_path` — the same identity field, used here through `Note`.
Filesystem paths are strings; the store's state is the set of metadata
files on disk. -/

/-- Models `Path::set_extension("metadata")` applied to a file name: the part after
the last `.` is replaced, a leading-dot-only name or a dotless name gets
`.metadata` appended. -/
def set_metadata_ext (name : String) : String :=
  match name.splitOn "." with
  | [] => name ++ ".metadata"
  | [_] => name ++ ".metadata"
  | "" :: [_] => name ++ ".metadata"
  | parts => String.intercalate "." parts.dropLast ++ ".metadata"

/-- Models `get_metadata_path_from_path` (ron.rs:169-175): join the root and the
note path, then `set_extension("metadata")` on the final component. -/
def get_metadata_path_from_path (path : String) (database_root : String) : String :=
  match (database_root ++ "/" ++ path).splitOn "/" with
  | [] => database_root
  | parts => String.intercalate "/" (parts.dropLast ++ [set_metadata_ext parts.getLast!])

/-- Models `get_metadata_path_from_note` (ron.rs:163-167). -/
def get_metadata_path_from_note (note : Note) (database_root : String) : String :=
  get_metadata_path_from_path note.absolute_path database_root

/-- Model of `ron::ser::to_string_pretty` on a `SerializedNote`
(ron.rs:85-86).  No claim inspects the stored text, only which files exist;
any total rendering is adequate. -/
def ron_to_string (sn : SerializedNote) : String :=
  "(id:" ++ toString sn.id ++
  ",absolute_path:" ++ sn.absolute_path ++
  ",next_datetime:" ++ toString sn.next_datetime ++
  ",scheduler:" ++ Json.render sn.scheduler ++ ")"

/-- The file backend's state: the database root and the files on disk
(path ↦ content).  Directories are created on demand and carry no state of
their own. -/
structure RonDB where
  database_dir : String
  files : List (String × String)

/-- Models `Path::exists` for a metadata path. -/
def RonDB.file_exists (db : RonDB) (path : String) : Bool :=
  db.files.any (fun f => f.1 == path)

/-- Models `File::options().read(true).write(true).create(true)` followed by
`write_all` (ron.rs:88-95): creates the file, or overwrites an existing one
from the start *without truncating*, so a longer previous content keeps its
tail. -/
def fs_write_no_truncate (files : List (String × String)) (path content : String) :
    List (String × String) :=
  if files.any (fun f => f.1 == path) then
    files.map (fun f =>
      if f.1 == path then (f.1, content ++ f.2.drop content.length) else f)
  else
    files ++ [(path, content)]

/-- Models `write_metadata` (ron.rs:65-97): serialize the note and write its
metadata file under the database root. -/
def write_metadata (note : Note) (db : RonDB) : RonDB :=
  let metadata_path := get_metadata_path_from_note note db.database_dir
  let ron := ron_to_string (note_to_serialized note)
  { db with files := fs_write_no_truncate db.files metadata_path ron }

/-- Models `NoteRepository::create` (ron.rs:27-35): iterate over the notes, skip a
note whose metadata file already exists (checked against the filesystem as
it is when that note is reached — the iterator is lazy), write the rest. -/
def RonDB.create (db : RonDB) (notes : List Note) : RonDB :=
  notes.foldl
    (fun d note =>
      if d.file_exists (get_metadata_path_from_note note d.database_dir) then d
      else write_metadata note d)
    db

/-- Models `delete_metadata` (ron.rs:99-110): an explicit existence check — a
missing metadata file is an error (`none`); otherwise the file is removed. -/
def delete_metadata (note : Note) (db : RonDB) : Option RonDB :=
  let metadata_path := get_metadata_path_from_note note db.database_dir
  if db.file_exists metadata_path then
    some { db with files := db.files.filter (fun f => !(f.1 == metadata_path)) }
  else
    none

/-- Models `NoteRepository::delete` (ron.rs:56-62): delete each note, stopping at
the first failure. -/
def RonDB.delete (db : RonDB) (notes : List Note) : Option RonDB :=
  notes.foldlM (fun d note => delete_metadata note d) db

/-! ## Path validation (`astronote-cli/src/main.rs:168-190`).  The
filesystem is the set of existing canonical absolute paths; the claims only
exercise already-canonical absolute inputs, on which `canonicalize` is the
identity. -/

/-- A path: an absolute flag plus components (canonical: no `.`/`..`). -/
structure FsPath where
  absolute : Bool
  components : List String
deriving DecidableEq, Repr

/-- The existing files and directories, as canonical absolute paths. -/
structure PathFs where
  entries : List (List String)

/-- Whether the path names an existing filesystem entry. -/
def PathFs.path_exists (fs : PathFs) (p : FsPath) : Bool :=
  p.absolute && fs.entries.any (fun e => e == p.components)

/-- Models `PathBuf::canonicalize`: resolves to the canonical absolute form, an
`io::Error` (`none`) when the path does not exist.  On the modelled
(already canonical) inputs it returns the path itself. -/
def path_canonicalize (fs : PathFs) (p : FsPath) : Option FsPath :=
  if fs.path_exists p then some p else none

/-- Display form of a path (`to_str`, total on the modelled paths). -/
def render_path (p : FsPath) : String :=
  (if p.absolute then "/" else "") ++ String.intercalate "/" p.components

/-- Models `validate_path` (main.rs:182-190): the path must exist
(`try_exists()?`) and be absolute; it is returned unchanged. -/
def validate_path (fs : PathFs) (path : FsPath) : Option FsPath :=
  if fs.path_exists path then
    if path.absolute then some path else none
  else
    none

/-- Models `get_validated_absolute_path` (main.rs:168-180): canonicalize, check the
result is absolute, run `validate_path`, and return the string form.  Note
that it takes no root and computes no root-relative form. -/
def get_validated_absolute_path (fs : PathFs) (path : FsPath) : Option String := do
  let absolute_path ← path_canonicalize fs path
  if absolute_path.absolute then
    let validated_path ← validate_path fs absolute_path
    pure (render_path validated_path)
  else
    none

/-! ## Concrete fixtures used by the claims -/

/-- A stored note due at day 8 (the spec's T−2 for T = 10). -/
def note_due_8 : SerializedNote :=
  { id := 1, absolute_path := "a", next_datetime := 8, scheduler := Json.null }

/-- A stored note due at day 9 (T−1). -/
def note_due_9 : SerializedNote :=
  { id := 2, absolute_path := "b", next_datetime := 9, scheduler := Json.null }

/-- A stored note due at day 11 (T+1). -/
def note_due_11 : SerializedNote :=
  { id := 3, absolute_path := "c", next_datetime := 11, scheduler := Json.null }

/-- A table holding the three notes, in unsorted rowid order. -/
def due_example_db : SqliteDB :=
  { rows := [note_due_9, note_due_11, note_due_8], next_id := 4 }

/-- An empty file-backend store. -/
def empty_ron_db : RonDB :=
  { database_dir := "root", files := [] }

/-- An empty relational store. -/
def empty_sqlite_db : SqliteDB :=
  { rows := [], next_id := 1 }

/-- A note whose identity is absent from the empty stores. -/
def absent_note : Note :=
  { id := 7, absolute_path := "missing", next_datetime := 0,
    scheduler := .sm2 SuperMemo2.default }

/-- The filesystem of the spec's path-confinement example: `/root/sub/file`
exists under `/root`, and `/other/file` exists outside it. -/
def confine_example_fs : PathFs :=
  { entries := [["root"], ["root", "sub"], ["root", "sub", "file"],
                ["other"], ["other", "file"]] }

/-- The path `/root/sub/file`. -/
def path_under_root : FsPath :=
  { absolute := true, components := ["root", "sub", "file"] }

/-- The path `/other/file`. -/
def path_outside_root : FsPath :=
  { absolute := true, components := ["other", "file"] }

example : update_repetition_interval SuperMemo2.default 0 =
    some { counter := 1, interval := 1, easiness_factor := 5 / 2 } := by
  norm_num [update_repetition_interval, SuperMemo2.default, SuperMemo2.new,
    INTERVAL_1ST_REPETITION]

example : update_repetition_interval (SuperMemo2.new 3 6 (5 / 2)) 4 =
    some { counter := 4, interval := 15, easiness_factor := 5 / 2 } := by
  norm_num [update_repetition_interval, update_easiness_factor, SuperMemo2.new,
    Int.ceil_eq_iff]

example : update_repetition_interval (SuperMemo2.new 3 6 3) 5 =
    some { counter := 4, interval := 19, easiness_factor := 31 / 10 } := by
  norm_num [update_repetition_interval, update_easiness_factor, SuperMemo2.new,
    Int.ceil_eq_iff]

example : update_repetition_interval (SuperMemo2.new 3 6 0) 3 =
    some { counter := 4, interval := 8, easiness_factor := 13 / 10 } := by
  norm_num [update_repetition_interval, update_easiness_factor, SuperMemo2.new,
    Int.ceil_eq_iff]

example : calculate_interval 2 (5 / 2) 5 = some 8 := by
  norm_num [calculate_interval, Int.ceil_eq_iff]

example : update_and_calculate_next_datetime (SuperMemo2.new 2 6 (5 / 2)) 5 0 =
    some (16, SuperMemo2.new 3 16 (13 / 5)) := by
  norm_num [update_and_calculate_next_datetime, update_repetition_interval,
    update_easiness_factor, SuperMemo2.new, checked_add_days, chronoMaxDay,
    u64_of_i64, Int.ceil_eq_iff]
  rw [(by norm_num [Int.ceil_eq_iff] : (⌈(78 : ℚ) / 5⌉ : ℤ) = 16)]
  norm_num

/-! ## Claims about the SM-2 scheduler -/

/-- Claim C1 (claim refuted — code bug).  The claim: preview
(`calculate_next_datetime`) returns the same next-due timestamp that advance
(`update_and_calculate_next_datetime`) would return from the same state,
response and "now".  It does not: from state (counter 2, interval 6,
easiness factor 5/2) with response 5 at now = 0, advance computes the new
easiness factor 13/5 and interval ⌈6 · 13/5⌉ = 16 and returns day 16, while
preview computes ⌈(2+1) · 5/2⌉ = 8 and returns day 8 — `calculate_interval`
multiplies the *incremented counter* (not the stored interval) by the
*un-updated* easiness factor. -/
theorem preview_advance_divergence :
    update_and_calculate_next_datetime (SuperMemo2.new 2 6 (5 / 2)) 5 0 =
      some (16, SuperMemo2.new 3 16 (13 / 5)) ∧
    calculate_next_datetime (SuperMemo2.new 2 6 (5 / 2)) 5 0 = some 8 ∧
    (16 : Int) ≠ 8 := by
  refine ⟨?_, ?_, by norm_num⟩
  · norm_num [update_and_calculate_next_datetime, update_repetition_interval,
      update_easiness_factor, SuperMemo2.new, checked_add_days, chronoMaxDay,
      u64_of_i64]
    rw [(by norm_num [Int.ceil_eq_iff] : (⌈(78 : ℚ) / 5⌉ : ℤ) = 16)]
    norm_num
  · norm_num [calculate_next_datetime, calculate_interval, SuperMemo2.new,
      checked_add_days, chronoMaxDay, u64_of_i64]
    rw [(by norm_num [Int.ceil_eq_iff] : (⌈(15 : ℚ) / 2⌉ : ℤ) = 8)]
    norm_num

/-- Claim C4. At repetition counter ≥ 3, any response quality in 0–2 is a
lapse: one call to `update_repetition_interval` yields an interval of
exactly 1 day with the counter restarted to 1 (everything else unchanged),
and one call to `calculate_interval` likewise yields 1. -/
theorem lapse_resets_interval_to_one (s : SuperMemo2) (q : Nat)
    (hc : 3 ≤ s.counter) (hq : q ≤ 2) :
    update_repetition_interval s q = some { s with counter := 1, interval := 1 } ∧
    calculate_interval s.counter s.easiness_factor q = some 1 := by
  have h1 : ¬(s.counter + 1 = 1) := by omega
  have h2 : ¬(s.counter + 1 = 2) := by omega
  have h3 : 3 ≤ s.counter + 1 := by omega
  have hq3 : q < 3 := by omega
  constructor
  · simp [update_repetition_interval, h1, h2, h3, hq3, INTERVAL_1ST_REPETITION]
  · simp [calculate_interval, h1, h2, h3, hq3, INTERVAL_1ST_REPETITION]

/-- Witness for `lapse_resets_interval_to_one`: counter 3, interval 6,
easiness factor 5/2, quality 0. -/
theorem lapse_resets_interval_to_one_witness :
    update_repetition_interval (SuperMemo2.new 3 6 (5 / 2)) 0 =
      some { SuperMemo2.new 3 6 (5 / 2) with counter := 1, interval := 1 } ∧
    calculate_interval (SuperMemo2.new 3 6 (5 / 2)).counter
      (SuperMemo2.new 3 6 (5 / 2)).easiness_factor 0 = some 1 :=
  lapse_resets_interval_to_one (SuperMemo2.new 3 6 (5 / 2)) 0
    (by norm_num [SuperMemo2.new]) (by norm_num)

/-- Claim C10. `update_repetition_interval` modifies the easiness factor only
in the success branch at working counter (counter + 1) ≥ 3: a call landing
the working counter on 1 or 2, and a lapse call (quality < 3 at working
counter ≥ 3), leave the easiness factor exactly unchanged; conversely a
changed easiness factor implies a success at working counter ≥ 3. -/
theorem easiness_factor_frame (s : SuperMemo2) (q : Nat) (s' : SuperMemo2)
    (h : update_repetition_interval s q = some s') :
    ((s.counter + 1 = 1 ∨ s.counter + 1 = 2) →
      s'.easiness_factor = s.easiness_factor) ∧
    (3 ≤ s.counter + 1 → q < 3 → s'.easiness_factor = s.easiness_factor) ∧
    (s'.easiness_factor ≠ s.easiness_factor → 3 ≤ s.counter + 1 ∧ 3 ≤ q) := by
  unfold update_repetition_interval at h
  split_ifs at h with h1 h2 h3 h4
  · injection h with h'
    subst h'
    exact ⟨fun _ => rfl, fun h3' _ => rfl, fun hne => (hne rfl).elim⟩
  · injection h with h'
    subst h'
    exact ⟨fun _ => rfl, fun h3' _ => rfl, fun hne => (hne rfl).elim⟩
  · injection h with h'
    subst h'
    exact ⟨fun _ => rfl, fun _ _ => rfl, fun hne => (hne rfl).elim⟩
  · injection h with h'
    subst h'
    refine ⟨fun hor => ?_, fun _ hq3 => (h4 hq3).elim, fun _ => ⟨h3, by omega⟩⟩
    rcases hor with h | h
    · exact (h1 h).elim
    · exact (h2 h).elim

/-- Witness for `easiness_factor_frame`: the first repetition from the
default state with quality 0. -/
theorem easiness_factor_frame_witness :
    ((SuperMemo2.default.counter + 1 = 1 ∨ SuperMemo2.default.counter + 1 = 2) →
      (SuperMemo2.new 1 1 (5 / 2)).easiness_factor = SuperMemo2.default.easiness_factor) ∧
    (3 ≤ SuperMemo2.default.counter + 1 → 0 < 3 →
      (SuperMemo2.new 1 1 (5 / 2)).easiness_factor = SuperMemo2.default.easiness_factor) ∧
    ((SuperMemo2.new 1 1 (5 / 2)).easiness_factor ≠ SuperMemo2.default.easiness_factor →
      3 ≤ SuperMemo2.default.counter + 1 ∧ 3 ≤ 0) :=
  easiness_factor_frame SuperMemo2.default 0 (SuperMemo2.new 1 1 (5 / 2))
    (by norm_num [update_repetition_interval, SuperMemo2.default, SuperMemo2.new,
      INTERVAL_1ST_REPETITION])

/-- One advance step keeps the easiness factor at or above 13/10 if it
started there: the 1st/2nd-repetition and lapse branches leave it unchanged
and the success branch clamps with `max · (13/10)`. -/
theorem easiness_floor_preserved {s s' : SuperMemo2} {q : Nat}
    (h : update_repetition_interval s q = some s')
    (hs : (13 : ℚ) / 10 ≤ s.easiness_factor) :
    (13 : ℚ) / 10 ≤ s'.easiness_factor := by
  unfold update_repetition_interval at h
  split_ifs at h with h1 h2 h3 h4
  · injection h with h'; subst h'; exact hs
  · injection h with h'; subst h'; exact hs
  · injection h with h'; subst h'; exact hs
  · injection h with h'
    subst h'
    simp [update_easiness_factor]

/-- The floor propagates along every prefix of an advance sequence. -/
theorem easiness_floor_trace (qs : List Nat) (s : SuperMemo2)
    (hs : (13 : ℚ) / 10 ≤ s.easiness_factor) :
    ∀ s' ∈ advance_states s qs, (13 : ℚ) / 10 ≤ s'.easiness_factor := by
  induction qs generalizing s with
  | nil => simp [advance_states]
  | cons q qs ih =>
    intro s' hmem
    simp only [advance_states] at hmem
    cases hst : advance_state s q with
    | none => simp [hst] at hmem
    | some s1 =>
      have hup : update_repetition_interval s (min q 6) = some s1 := by
        simpa [advance_state] using hst
      simp only [hst] at hmem
      rcases List.mem_cons.mp hmem with rfl | hmem
      · exact easiness_floor_preserved hup hs
      · exact ih s1 (easiness_floor_preserved hup hs) s' hmem

/-- Claim C5. Starting from the default scheduler state (counter 0, interval
0, easiness factor 5/2), every state reached by any sequence of advance
calls has easiness factor ≥ 13/10. -/
theorem easiness_factor_never_below_floor (qs : List Nat) (s' : SuperMemo2)
    (h : s' ∈ advance_states SuperMemo2.default qs) :
    (13 : ℚ) / 10 ≤ s'.easiness_factor :=
  easiness_floor_trace qs SuperMemo2.default
    (by norm_num [SuperMemo2.default, SuperMemo2.new]) s' h

/-- Witness for `easiness_factor_never_below_floor`: the single-step
sequence [0] from the default state reaches counter 1, interval 1,
easiness factor 5/2. -/
theorem easiness_factor_never_below_floor_witness :
    SuperMemo2.new 1 1 (5 / 2) ∈ advance_states SuperMemo2.default [0] ∧
    (13 : ℚ) / 10 ≤ (SuperMemo2.new 1 1 (5 / 2)).easiness_factor :=
  have hmem : SuperMemo2.new 1 1 (5 / 2) ∈ advance_states SuperMemo2.default [0] := by
    norm_num [advance_states, advance_state, update_repetition_interval,
      SuperMemo2.default, SuperMemo2.new, INTERVAL_1ST_REPETITION]
  ⟨hmem, easiness_factor_never_below_floor [0] (SuperMemo2.new 1 1 (5 / 2)) hmem⟩

/-- Claim C3 counterexample (claim refuted).  The claim: on day-arithmetic
overflow the operations fail with an `ArithmeticOverflow` error and never
panic.  The code has no error channel at all — both trait methods return a
bare datetime and `.unwrap()` the checked addition, a panic (`none`): from
state (counter 2, interval 10^17, easiness factor 5/2) with response 5,
advance panics, and preview panics from state (counter 10^17, interval 0,
easiness factor 5/2). -/
theorem overflow_panics_cex :
    update_and_calculate_next_datetime (SuperMemo2.new 2 (10 ^ 17) (5 / 2)) 5 0 = none ∧
    calculate_next_datetime (SuperMemo2.new (10 ^ 17) 0 (5 / 2)) 5 0 = none := by
  constructor
  · have h1 : update_repetition_interval (SuperMemo2.new 2 (10 ^ 17) (5 / 2)) 5 =
        some (SuperMemo2.new 3 (26 * 10 ^ 16) (13 / 5)) := by
      norm_num [update_repetition_interval, update_easiness_factor, SuperMemo2.new,
        Int.ceil_eq_iff]
    simp only [update_and_calculate_next_datetime,
      (by norm_num : min (5 : Nat) 6 = 5), h1, Option.bind_eq_bind, Option.some_bind]
    norm_num [SuperMemo2.new, u64_of_i64, checked_add_days, chronoMaxDay]
  · have h2 : calculate_interval (10 ^ 17 : Int) (5 / 2) 5 =
        some 250000000000000003 := by
      norm_num [calculate_interval, Int.ceil_eq_iff]
    simp only [calculate_next_datetime, SuperMemo2.new,
      (by norm_num : min (5 : Nat) 6 = 5), h2, Option.bind_eq_bind, Option.some_bind]
    norm_num [u64_of_i64, checked_add_days, chronoMaxDay]

/-- Claim C3 amended.  Whenever the scheduler-state update itself succeeds,
each operation panics (`none`, the `.unwrap()` of `checked_add_days`)
exactly when adding the computed interval (cast to `u64`) to "now" leaves
the representable date range, and otherwise returns exactly now + interval —
no `ArithmeticOverflow` error value exists, and no silent truncation
happens. -/
theorem overflow_panics_never_truncates (s : SuperMemo2) (q : Nat) (now : Int)
    (s' : SuperMemo2) (i : Int)
    (hs : update_repetition_interval s (min q 6) = some s')
    (hi : calculate_interval s.counter s.easiness_factor (min q 6) = some i) :
    update_and_calculate_next_datetime s q now =
      (if now + (u64_of_i64 s'.interval : Int) ≤ chronoMaxDay
       then some (now + (u64_of_i64 s'.interval : Int), s') else none) ∧
    calculate_next_datetime s q now =
      (if now + (u64_of_i64 i : Int) ≤ chronoMaxDay
       then some (now + (u64_of_i64 i : Int)) else none) := by
  constructor
  · simp only [update_and_calculate_next_datetime, hs, Option.bind_eq_bind,
      Option.some_bind, checked_add_days]
    split_ifs with h
    · rfl
    · rfl
  · simp only [calculate_next_datetime, hi, Option.bind_eq_bind,
      Option.some_bind, checked_add_days]
    split_ifs with h
    · rfl
    · rfl

/-- Witness for `overflow_panics_never_truncates`: the first repetition from
the default state with quality 0 at now = 0 — no overflow, the result is
day 1. -/
theorem overflow_panics_never_truncates_witness :
    update_and_calculate_next_datetime SuperMemo2.default 0 0 =
      (if (0 : Int) + (u64_of_i64 (SuperMemo2.new 1 1 (5 / 2)).interval : Int) ≤ chronoMaxDay
       then some ((0 : Int) + (u64_of_i64 (SuperMemo2.new 1 1 (5 / 2)).interval : Int),
                  SuperMemo2.new 1 1 (5 / 2))
       else none) ∧
    calculate_next_datetime SuperMemo2.default 0 0 =
      (if (0 : Int) + (u64_of_i64 1 : Int) ≤ chronoMaxDay
       then some ((0 : Int) + (u64_of_i64 1 : Int)) else none) :=
  overflow_panics_never_truncates SuperMemo2.default 0 0 (SuperMemo2.new 1 1 (5 / 2)) 1
    (by norm_num [update_repetition_interval, SuperMemo2.default, SuperMemo2.new,
      INTERVAL_1ST_REPETITION])
    (by norm_num [calculate_interval, SuperMemo2.default, SuperMemo2.new,
      INTERVAL_1ST_REPETITION])

/-! ## Claims about serialization and the stores -/

/-- Claim C7. The Note/SerializedNote conversion pair round-trips: converting
any Note to its serialized form and back yields an equal Note, and
deserializing any well-formed stored value (the canonical tagged shape both
backends write) and re-serializing it yields it back unchanged. -/
theorem note_serialization_round_trip :
    (∀ note : Note,
      (SerializedNote.try_from note).bind SerializedNote.try_into = some note) ∧
    (∀ x : SerializedNote, is_canonical_scheduler_value x.scheduler →
      (SerializedNote.try_into x).bind SerializedNote.try_from = some x) := by
  constructor
  · intro note
    obtain ⟨id, path, dt, sch⟩ := note
    cases sch with
    | sm2 s =>
      simp [SerializedNote.try_from, note_to_serialized, SerializedNote.try_into,
        scheduler_to_value, scheduler_from_value, jsonField, jsonToI64, jsonToF64,
        List.find?, Rat.den_intCast, Rat.num_intCast]
  · intro x hx
    obtain ⟨id, path, dt, sch⟩ := x
    obtain ⟨c, i, e, rfl⟩ := hx
    simp [SerializedNote.try_into, SerializedNote.try_from, note_to_serialized,
      scheduler_from_value, scheduler_to_value, jsonField, jsonToI64, jsonToF64,
      List.find?, Rat.den_intCast, Rat.num_intCast]

/-- Witness for `note_serialization_round_trip`: two distinct SM-2 scheduler
states round-trip through the conversion pair, and a concrete well-formed
stored value survives deserialize-then-serialize. -/
theorem note_serialization_round_trip_witness :
    (SerializedNote.try_from
        { id := 0, absolute_path := "test", next_datetime := 0,
          scheduler := .sm2 (SuperMemo2.new 1 1 (5 / 2)) }).bind
      SerializedNote.try_into =
      some { id := 0, absolute_path := "test", next_datetime := 0,
             scheduler := .sm2 (SuperMemo2.new 1 1 (5 / 2)) } ∧
    (SerializedNote.try_from
        { id := 1, absolute_path := "test2", next_datetime := 9,
          scheduler := .sm2 (SuperMemo2.new 4 15 (13 / 5)) }).bind
      SerializedNote.try_into =
      some { id := 1, absolute_path := "test2", next_datetime := 9,
             scheduler := .sm2 (SuperMemo2.new 4 15 (13 / 5)) } ∧
    (SerializedNote.try_into
        { id := 2, absolute_path := "test3", next_datetime := 11,
          scheduler := Json.obj [("type", .str "SuperMemo2"),
                                 ("counter", .num ((3 : Int) : ℚ)),
                                 ("interval", .num ((6 : Int) : ℚ)),
                                 ("easiness_factor", .num (5 / 2))] }).bind
      SerializedNote.try_from =
      some { id := 2, absolute_path := "test3", next_datetime := 11,
             scheduler := Json.obj [("type", .str "SuperMemo2"),
                                    ("counter", .num ((3 : Int) : ℚ)),
                                    ("interval", .num ((6 : Int) : ℚ)),
                                    ("easiness_factor", .num (5 / 2))] } :=
  ⟨note_serialization_round_trip.1
     { id := 0, absolute_path := "test", next_datetime := 0,
       scheduler := .sm2 (SuperMemo2.new 1 1 (5 / 2)) },
   note_serialization_round_trip.1
     { id := 1, absolute_path := "test2", next_datetime := 9,
       scheduler := .sm2 (SuperMemo2.new 4 15 (13 / 5)) },
   note_serialization_round_trip.2
     { id := 2, absolute_path := "test3", next_datetime := 11,
       scheduler := Json.obj [("type", .str "SuperMemo2"),
                              ("counter", .num ((3 : Int) : ℚ)),
                              ("interval", .num ((6 : Int) : ℚ)),
                              ("easiness_factor", .num (5 / 2))] }
     ⟨3, 6, 5 / 2, rfl⟩⟩

/-- After `write_metadata`, the note's metadata file exists (whether it was
created fresh or overwritten in place). -/
theorem file_exists_after_write_metadata (note : Note) (db : RonDB) :
    (write_metadata note db).file_exists
      (get_metadata_path_from_note note db.database_dir) = true := by
  simp only [write_metadata, RonDB.file_exists, fs_write_no_truncate]
  by_cases h : db.files.any
      (fun f => f.1 == get_metadata_path_from_note note db.database_dir)
  · simp only [h, if_true]
    rcases List.any_eq_true.mp h with ⟨f, hf, hfp⟩
    refine List.any_eq_true.mpr ?_
    refine ⟨if f.1 == get_metadata_path_from_note note db.database_dir
            then (f.1, ron_to_string (note_to_serialized note) ++
                  f.2.drop (ron_to_string (note_to_serialized note)).length)
            else f, List.mem_map.mpr ⟨f, hf, rfl⟩, ?_⟩
    simp [hfp]
  · simp [h, List.any_append]

/-- Claim C6. `create` followed by `create` of the same note leaves the store
state unchanged in both backends: the relational `INSERT … ON CONFLICT DO
NOTHING` is a no-op once a row with the same identity exists, and the file
backend filters out notes whose metadata file already exists. -/
theorem create_create_idempotent :
    (∀ (db : SqliteDB) (item : SerializedNote),
      SqliteDB.create (SqliteDB.create db item) item = SqliteDB.create db item) ∧
    (∀ (db : RonDB) (note : Note),
      RonDB.create (RonDB.create db [note]) [note] = RonDB.create db [note]) := by
  constructor
  · intro db item
    by_cases h : db.rows.any (fun r => r.absolute_path == item.absolute_path)
    · simp [SqliteDB.create, h]
    · have hc : SqliteDB.create db item =
          { rows := db.rows ++ [{ item with id := db.next_id }],
            next_id := db.next_id + 1 } := by
        simp [SqliteDB.create, h]
      rw [hc]
      have h2 : ((db.rows ++ [{ item with id := db.next_id }]).any
          (fun r => r.absolute_path == item.absolute_path)) = true := by
        simp [List.any_append]
      simp [SqliteDB.create, h2]
  · intro db note
    simp only [RonDB.create, List.foldl]
    by_cases h : db.file_exists (get_metadata_path_from_note note db.database_dir)
    · simp [h]
    · simp only [h, Bool.false_eq_true, if_false]
      have hdir : (write_metadata note db).database_dir = db.database_dir := rfl
      have hex : (write_metadata note db).file_exists
          (get_metadata_path_from_note note (write_metadata note db).database_dir) = true := by
        rw [hdir]; exact file_exists_after_write_metadata note db
      simp [hex]

/-- Claim C9 counterexample (claim refuted).  The claim: deleting a Note whose
identity is absent fails with `NotFound` identically in both backends.  The
file backend does fail — but the relational backend's
`DELETE FROM notes WHERE id = ?` succeeds as a no-op on an empty store,
returning the store unchanged with `Ok(())` (its delete is total: it has no
not-found error path at all). -/
theorem delete_absent_backends_differ_cex :
    RonDB.delete empty_ron_db [absent_note] = none ∧
    SqliteDB.delete empty_sqlite_db (note_to_serialized absent_note) = empty_sqlite_db := by
  constructor
  · rfl
  · rfl

/-- Claim C9 amended.  On an absent identity the two backends diverge: the
file backend's delete fails (the metadata file does not exist), while the
relational backend's delete matches zero rows and succeeds, leaving the
store unchanged — it is a silent no-op, not a `NotFound` failure. -/
theorem delete_absent_behavior (rdb : RonDB) (note : Note)
    (db : SqliteDB) (item : SerializedNote)
    (hr : rdb.file_exists (get_metadata_path_from_note note rdb.database_dir) = false)
    (hs : ∀ r ∈ db.rows, r.id ≠ item.id) :
    RonDB.delete rdb [note] = none ∧
    SqliteDB.delete db item = db := by
  constructor
  · simp [RonDB.delete, delete_metadata, hr]
  · have hfilter : db.rows.filter (fun r => !(r.id == item.id)) = db.rows :=
      List.filter_eq_self.mpr (fun r hrr => by simp [hs r hrr])
    simp [SqliteDB.delete, hfilter]

/-- Witness for `delete_absent_behavior`: the empty stores and a note with
identity "missing". -/
theorem delete_absent_behavior_witness :
    RonDB.delete empty_ron_db [absent_note] = none ∧
    SqliteDB.delete empty_sqlite_db (note_to_serialized absent_note) = empty_sqlite_db :=
  delete_absent_behavior empty_ron_db absent_note empty_sqlite_db
    (note_to_serialized absent_note) rfl (by simp [empty_sqlite_db])

/-- Claim C2 counterexample (claim refuted).  The claim: the ordered due query
returns exactly the stored notes with next_due ≤ now, so at now = 10 the
notes due at days 8, 9, 11 yield only the first two.  But `get_old_notes`
takes no `now` at all — its SQL (`SELECT * FROM notes ORDER BY next_datetime
LIMIT ?`) has no due filter — so it returns all three notes, while the
spec's query returns two. -/
theorem get_old_notes_no_due_filter_cex :
    SqliteDB.get_old_notes due_example_db 10 = [note_due_8, note_due_9, note_due_11] ∧
    spec_list_due due_example_db 10 10 = [note_due_8, note_due_9] ∧
    SqliteDB.get_old_notes due_example_db 10 ≠ spec_list_due due_example_db 10 10 := by
  refine ⟨rfl, rfl, ?_⟩
  show [note_due_8, note_due_9, note_due_11] ≠ [note_due_8, note_due_9]
  simp

/-- Claim C2 amended.  `get_old_notes` returns the stored notes sorted
ascending by `next_datetime` and truncated to the limit, with *no* due-date
filter: the output is sorted, has length `min limit count`, draws only on
stored rows, and — whenever the limit allows — is a permutation of *all*
stored rows, future-due ones included. -/
theorem get_old_notes_sorted_truncated_unfiltered (db : SqliteDB) (size : Nat) :
    (SqliteDB.get_old_notes db size).Sorted by_due ∧
    (SqliteDB.get_old_notes db size).length = min (size % 2 ^ 32) db.rows.length ∧
    (∀ x ∈ SqliteDB.get_old_notes db size, x ∈ db.rows) ∧
    (db.rows.length ≤ size % 2 ^ 32 →
      (SqliteDB.get_old_notes db size).Perm db.rows) := by
  refine ⟨?_, ?_, ?_, ?_⟩
  · exact List.Pairwise.sublist (List.take_sublist _ _)
      (List.sorted_insertionSort by_due db.rows)
  · simp [SqliteDB.get_old_notes, List.length_take, List.length_insertionSort]
  · intro x hx
    have hx' := List.take_subset _ _ hx
    simpa using hx'
  · intro hlen
    have hall : (db.rows.insertionSort by_due).take (size % 2 ^ 32) =
        db.rows.insertionSort by_due :=
      List.take_of_length_le (by simpa [List.length_insertionSort] using hlen)
    rw [SqliteDB.get_old_notes, hall]
    exact List.perm_insertionSort by_due db.rows

/-- Witness for `get_old_notes_sorted_truncated_unfiltered`: the T−2/T−1/T+1
store with limit 10 — the future-due note is among the results and the
query returns a permutation of all three rows. -/
theorem get_old_notes_sorted_truncated_unfiltered_witness :
    (SqliteDB.get_old_notes due_example_db 10).Sorted by_due ∧
    note_due_11 ∈ due_example_db.rows ∧
    (SqliteDB.get_old_notes due_example_db 10).Perm due_example_db.rows :=
  ⟨(get_old_notes_sorted_truncated_unfiltered due_example_db 10).1,
   (get_old_notes_sorted_truncated_unfiltered due_example_db 10).2.2.1 note_due_11
     (by
       show note_due_11 ∈ [note_due_8, note_due_9, note_due_11]
       exact List.mem_cons_of_mem _ (List.mem_cons_of_mem _ (List.mem_cons_self _ _))),
   (get_old_notes_sorted_truncated_unfiltered due_example_db 10).2.2.2 (by decide)⟩

/-- Claim C8 counterexample (claim refuted).  The claim: the gate returns the
root-relative identity (`"sub/file"` for `/root/sub/file` under `/root`) and
rejects paths outside the root.  The function takes no root at all: it
returns the absolute path `"/root/sub/file"`, and it accepts
`"/other/file"` instead of failing with OutsideRoot. -/
theorem confine_no_root_relative_cex :
    get_validated_absolute_path confine_example_fs path_under_root =
      some "/root/sub/file" ∧
    get_validated_absolute_path confine_example_fs path_outside_root =
      some "/other/file" ∧
    some "/root/sub/file" ≠ some "sub/file" := by
  refine ⟨rfl, rfl, by simp⟩

/-- Claim C8 amended.  `get_validated_absolute_path` takes no root and
performs no confinement: it succeeds exactly on existing absolute paths
(canonicalization fails on the rest) and returns the canonical *absolute*
path string itself as the identity — never a root-relative form, never an
OutsideRoot failure. -/
theorem validated_path_absolute_identity (fs : PathFs) (p : FsPath) :
    get_validated_absolute_path fs p =
      (if fs.path_exists p then some (render_path p) else none) := by
  unfold get_validated_absolute_path path_canonicalize validate_path
  by_cases hex : fs.path_exists p = true
  · have habs : p.absolute = true := by
      have h2 := hex
      simp only [PathFs.path_exists, Bool.and_eq_true] at h2
      exact h2.1
    simp [hex, habs]
  · simp [hex]
